import Mathlib

/-!
Shallow embedding of the GUUK AI backend (`src/main.py`): the content
generation endpoints, history persistence, and quiz scoring.

Modelling conventions:
* The Firestore handle `db` (which is `None` when initialization failed) is
  modelled as `DBState := Option (List (String × ContentEntry))`: `none` means
  "not connected", `some log` is a flat append-only log of
  (owner-username, entry) pairs standing for the per-user `history`
  subcollections.
* Network calls to OpenAI (`openai.chat.completions.create`,
  `openai.images.generate`) are modelled as oracle parameters of type
  `String → Except String String` (prompt to result-or-raised-error): the
  Python `try`/`except` around a provider call corresponds to a `match` on
  the oracle's `Except`.  The stub providers (Gemini/Claude/Manus and the
  video/cartoon/voiceover generators) are pure string formatting in the
  source and cannot raise; they are embedded as total functions.
* `OPENAI_API_KEY` truthiness is the boolean `keySet`.
* `datetime.now().isoformat()` is the explicit parameter `now`.
* `raise HTTPException(status_code, detail)` is `Except.error ⟨status, detail⟩`.
* The `current_user` FastAPI dependency of the protected endpoints is passed
  as an explicit `currentUser : String` (the resolved username); the handler
  bodies are embedded exactly as written, so whether they use it is visible.
-/

/-- One persisted history document.  Fields that a given endpoint does not
set (`output` for media, `storage_url`/`media_type` for text, `provider`
for the non-advanced endpoints) are `none`, mirroring absent dict keys.
`created_at` is a string (ISO timestamp); the empty string models a
missing `created_at` key, matching `k.get('created_at', '')`. -/
structure ContentEntry where
  user : String
  prompt : String
  output : Option String := none
  storage_url : Option String := none
  media_type : Option String := none
  type : String
  provider : Option String := none
  created_at : String
deriving Repr, DecidableEq

/-- An HTTP error raised past the endpoint boundary
(`raise HTTPException(status_code=..., detail=...)`). -/
structure HTTPError where
  status : Nat
  detail : String
deriving Repr, DecidableEq

/-- The Firestore state: `none` when the database is not connected
(`db is None`), otherwise the flat log of (owner, entry) pairs. -/
abbrev DBState := Option (List (String × ContentEntry))

/-- `user_ref.collection("history").add(entry)` guarded by `if db:` —
appends when connected, silently does nothing when `db` is `None`. -/
def dbAppend (db : DBState) (owner : String) (e : ContentEntry) : DBState :=
  match db with
  | none => none
  | some log => some (log ++ [(owner, e)])

/-- An upstream provider call: the prompt either yields a result string or
raises (the `Except.error` payload is the exception message `e`). -/
abbrev Oracle := String → Except String String

/-- `generate_text_gemini` (`src/main.py:360`). -/
def generate_text_gemini (prompt : String) : String :=
  "[Gemini] " ++ prompt ++ " (stub)"

/-- `generate_text_claude` (`src/main.py:364`). -/
def generate_text_claude (prompt : String) : String :=
  "[Claude] " ++ prompt ++ " (stub)"

/-- `generate_text_manus` (`src/main.py:368`). -/
def generate_text_manus (prompt : String) : String :=
  "[Manus] " ++ prompt ++ " (stub)"

/-- `generate_image_gemini` (`src/main.py:382`). -/
def generate_image_gemini : String :=
  "https://placehold.co/1024x1024?text=Gemini+Image+Stub"

/-- `generate_image_claude` (`src/main.py:386`). -/
def generate_image_claude : String :=
  "https://placehold.co/1024x1024?text=Claude+Image+Stub"

/-- `generate_image_manus` (`src/main.py:390`). -/
def generate_image_manus : String :=
  "https://placehold.co/1024x1024?text=Manus+Image+Stub"

/-- `generate_video_ai` (`src/main.py:394`). -/
def generate_video_ai (provider : String) : String :=
  if provider == "openai" then "https://www.w3schools.com/html/mov_bbb.mp4"
  else "https://placehold.co/640x360?text=" ++ provider ++ "+Video+Stub"

/-- `generate_cartoon_video` (`src/main.py:398`). -/
def generate_cartoon_video (provider : String) : String :=
  if provider == "openai" then "https://media.giphy.com/media/ICOgUNjpvO0PC/giphy.gif"
  else "https://placehold.co/400x300?text=" ++ provider ++ "+Cartoon+Stub"

/-- `generate_voiceover` (`src/main.py:402`). -/
def generate_voiceover (provider : String) : String :=
  if provider == "openai" then "https://www.soundhelix.com/examples/mp3/SoundHelix-Song-1.mp3"
  else "https://placehold.co/300x50?text=" ++ provider ++ "+Voice+Stub"

/-- `POST /generate-text` (`src/main.py:261`): key check, OpenAI call with
the exception caught into an inline error string, entry build, guarded
persist.  Returns the entry together with the new db state. -/
def generate_text (keySet : Bool) (openaiChat : Oracle) (db : DBState)
    (user prompt now : String) : Except HTTPError (ContentEntry × DBState) :=
  if !keySet then .error ⟨500, "OpenAI API key not set"⟩
  else
    let output := match openaiChat prompt with
      | .ok s => s
      | .error e => "[OpenAI error: " ++ e ++ "]"
    let entry : ContentEntry :=
      { user := user, prompt := prompt, output := some output,
        type := "text", created_at := now }
    .ok (entry, dbAppend db user entry)

/-- `POST /generate-image` (`src/main.py:287`): key check, OpenAI image call
with the exception caught into a fixed placeholder URL plus an annotated
prompt, entry build, guarded persist. -/
def generate_image (keySet : Bool) (openaiImage : Oracle) (db : DBState)
    (user prompt now : String) : Except HTTPError (ContentEntry × DBState) :=
  if !keySet then .error ⟨500, "OpenAI API key not set"⟩
  else
    let p := match openaiImage prompt with
      | .ok u => (u, prompt)
      | .error e => ("https://placehold.co/400x300?text=OpenAI+Error",
                     "[OpenAI error: " ++ e ++ "] " ++ prompt)
    let entry : ContentEntry :=
      { user := user, prompt := p.2, storage_url := some p.1,
        media_type := some "image", type := "image_generation", created_at := now }
    .ok (entry, dbAppend db user entry)

/-- `POST /generate-video` (`src/main.py:316`): stubbed URL, no key check. -/
def generate_video (db : DBState) (user prompt now : String) :
    Except HTTPError (ContentEntry × DBState) :=
  let entry : ContentEntry :=
    { user := user, prompt := prompt,
      storage_url := some "https://www.w3schools.com/html/mov_bbb.mp4",
      media_type := some "video", type := "video_generation", created_at := now }
  .ok (entry, dbAppend db user entry)

/-- `POST /generate-animation` (`src/main.py:333`): stubbed URL, no key check. -/
def generate_animation (db : DBState) (user prompt now : String) :
    Except HTTPError (ContentEntry × DBState) :=
  let entry : ContentEntry :=
    { user := user, prompt := prompt,
      storage_url := some "https://media.giphy.com/media/ICOgUNjpvO0PC/giphy.gif",
      media_type := some "animation", type := "animation_generation", created_at := now }
  .ok (entry, dbAppend db user entry)

/-- `POST /generate-text-advanced` (`src/main.py:407`): key check only when
`provider == "openai"`, branch-per-provider dispatch inside one `try`
(only the OpenAI branch can raise), unknown-provider fallthrough string,
entry with composite type `text_{provider}`, guarded persist. -/
def generate_text_advanced (keySet : Bool) (openaiChat : Oracle) (db : DBState)
    (user prompt provider currentUser now : String) :
    Except HTTPError (ContentEntry × DBState) :=
  if !keySet && provider == "openai" then .error ⟨500, "OpenAI API key not set"⟩
  else
    let output :=
      if provider == "openai" then
        match openaiChat prompt with
        | .ok s => s
        | .error e => "[AI error: " ++ e ++ "]"
      else if provider == "gemini" then generate_text_gemini prompt
      else if provider == "claude" then generate_text_claude prompt
      else if provider == "manus" then generate_text_manus prompt
      else "[Unknown provider: " ++ provider ++ "]"
    let entry : ContentEntry :=
      { user := user, prompt := prompt, output := some output,
        type := "text_" ++ provider, provider := some provider, created_at := now }
    .ok (entry, dbAppend db user entry)

/-- `POST /generate-image-advanced` (`src/main.py:443`): key check only when
`provider == "openai"`, dispatch with unknown-provider placeholder URL,
OpenAI failure caught into a fixed error URL plus annotated prompt, entry
with composite type `image_generation_{provider}`, guarded persist. -/
def generate_image_advanced (keySet : Bool) (openaiImage : Oracle) (db : DBState)
    (user prompt provider currentUser now : String) :
    Except HTTPError (ContentEntry × DBState) :=
  if !keySet && provider == "openai" then .error ⟨500, "OpenAI API key not set"⟩
  else
    let p :=
      if provider == "openai" then
        match openaiImage prompt with
        | .ok u => (u, prompt)
        | .error e => ("https://placehold.co/400x300?text=AI+Error",
                       "[AI error: " ++ e ++ "] " ++ prompt)
      else if provider == "gemini" then (generate_image_gemini, prompt)
      else if provider == "claude" then (generate_image_claude, prompt)
      else if provider == "manus" then (generate_image_manus, prompt)
      else ("https://placehold.co/400x300?text=" ++ provider ++ "+Image+Stub", prompt)
    let entry : ContentEntry :=
      { user := user, prompt := p.2, storage_url := some p.1,
        media_type := some "image", type := "image_generation_" ++ provider,
        provider := some provider, created_at := now }
    .ok (entry, dbAppend db user entry)

/-- `POST /generate-video-advanced` (`src/main.py:481`): no key check,
stub dispatch via `generate_video_ai`, type `video_generation_{provider}`. -/
def generate_video_advanced (db : DBState)
    (user prompt provider currentUser now : String) :
    Except HTTPError (ContentEntry × DBState) :=
  let entry : ContentEntry :=
    { user := user, prompt := prompt, storage_url := some (generate_video_ai provider),
      media_type := some "video", type := "video_generation_" ++ provider,
      provider := some provider, created_at := now }
  .ok (entry, dbAppend db user entry)

/-- `POST /generate-cartoon-advanced` (`src/main.py:504`): no key check,
stub dispatch via `generate_cartoon_video`, `media_type` is `"animation"`,
type `cartoon_generation_{provider}`. -/
def generate_cartoon_advanced (db : DBState)
    (user prompt provider currentUser now : String) :
    Except HTTPError (ContentEntry × DBState) :=
  let entry : ContentEntry :=
    { user := user, prompt := prompt, storage_url := some (generate_cartoon_video provider),
      media_type := some "animation", type := "cartoon_generation_" ++ provider,
      provider := some provider, created_at := now }
  .ok (entry, dbAppend db user entry)

/-- `POST /generate-voiceover-advanced` (`src/main.py:527`): no key check,
stub dispatch via `generate_voiceover`, `media_type` is `"audio"`,
type `voiceover_generation_{provider}`. -/
def generate_voiceover_advanced (db : DBState)
    (user prompt provider currentUser now : String) :
    Except HTTPError (ContentEntry × DBState) :=
  let entry : ContentEntry :=
    { user := user, prompt := prompt, storage_url := some (generate_voiceover provider),
      media_type := some "audio", type := "voiceover_generation_" ++ provider,
      provider := some provider, created_at := now }
  .ok (entry, dbAppend db user entry)

/-- Request body of `POST /save-content` (the `Content` pydantic model,
`src/main.py:58`). -/
structure Content where
  user : String
  prompt : String
  output : String
  type : String
deriving Repr, DecidableEq

/-- `POST /save-content` (`src/main.py:190`): 500 when the db is not
connected, otherwise builds the entry from the body plus `created_at` and
appends it under the authenticated user's username. -/
def save_content (db : DBState) (data : Content) (currentUser now : String) :
    Except HTTPError (ContentEntry × DBState) :=
  match db with
  | none => .error ⟨500, "Database not connected"⟩
  | some log =>
    let entry : ContentEntry :=
      { user := data.user, prompt := data.prompt, output := some data.output,
        type := data.type, created_at := now }
    .ok (entry, some (log ++ [(currentUser, entry)]))

/-- Code-point lexicographic `≤` on character lists: Python's string
comparison, which `sorted` applies to the `created_at` keys. -/
def charListLe : List Char → List Char → Bool
  | [], _ => true
  | _ :: _, [] => false
  | a :: as, b :: bs => if a = b then charListLe as bs else decide (a < b)

/-- Python's `≤` on strings (code-point lexicographic). -/
def strLe (a b : String) : Bool :=
  charListLe a.data b.data

/-- The descending-by-`created_at` order used by the history listing:
`a` may come before `b` when `b.created_at ≤ a.created_at`. -/
def histLe (a b : ContentEntry) : Prop :=
  strLe b.created_at a.created_at = true

instance : DecidableRel histLe := fun a b =>
  inferInstanceAs (Decidable (strLe b.created_at a.created_at = true))

/-- `sorted(history_list, key=lambda k: k.get('created_at', ''), reverse=True)`
(`src/main.py:254`): a stable descending sort on the `created_at` key
(missing key modelled as `""`), embedded as a stable insertion sort with
the relation `histLe` (an earlier element is inserted before any later
element whose key is ≤ its own, which reproduces Python's stable
`reverse=True` ordering). -/
def sortHistory (l : List ContentEntry) : List ContentEntry :=
  List.insertionSort histLe l

/-- The documents of one user's `history` subcollection, in insertion
order, read off the flat log. -/
def userEntries (log : List (String × ContentEntry)) (user : String) :
    List ContentEntry :=
  (log.filter (fun p => p.1 == user)).map Prod.snd

/-- `GET /user/history` (`src/main.py:242`): 500 when the db is not
connected, otherwise the user's entries sorted by `created_at`
descending. -/
def get_history (db : DBState) (user : String) :
    Except HTTPError (List ContentEntry) :=
  match db with
  | none => .error ⟨500, "Database not connected"⟩
  | some log => .ok (sortHistory (userEntries log user))

/-- The `QuizQuestion` pydantic model (`src/main.py:551`): `answer` is the
index of the correct option (a Python `int`, hence `Int`). -/
structure QuizQuestion where
  question : String
  options : List String
  answer : Int
deriving Repr, DecidableEq

/-- The scoring loop of `POST /quiz/submit` (`src/main.py:616`):
`for idx, q in enumerate(quiz["questions"]): if idx < len(sub.answers) and
sub.answers[idx] == q.get("answer"): correct += 1`. -/
def quizCorrectCount (questions : List QuizQuestion) (answers : List Int) : Nat :=
  questions.enum.foldl
    (fun correct p =>
      if p.1 < answers.length && answers.getD p.1 0 == p.2.answer then correct + 1
      else correct)
    0

/-- `POST /quiz/submit` (`src/main.py:608`): 500 when the db is not
connected, 404 when the quiz document does not exist, otherwise the reply
`score`/`total` pair computed by the scoring loop. -/
def submit_quiz (dbConnected : Bool) (quizDoc : Option (List QuizQuestion))
    (answers : List Int) : Except HTTPError (Nat × Nat) :=
  if !dbConnected then .error ⟨500, "Database not connected"⟩
  else
    match quizDoc with
    | none => .error ⟨404, "Quiz not found"⟩
    | some questions => .ok (quizCorrectCount questions answers, questions.length)

/-- A value of a quiz Firestore document field: the `title`, `created_by`,
`created_at` and `id` fields are strings, the `questions` field is the
stored question list. -/
inductive QVal where
  | str (s : String)
  | questions (qs : List QuizQuestion)
deriving Repr, DecidableEq

/-- A quiz Firestore document as a key-value dict (keys unique). -/
abbrev QuizDoc := List (String × QVal)

/-- `d.pop(k, None)`: removes the key `k` if present. -/
def dictPop (d : QuizDoc) (k : String) : QuizDoc :=
  d.filter (fun p => p.1 != k)

/-- The document written by `POST /quiz/create` (`src/main.py:567`):
the body's `title` and `questions`, with `created_by` overwritten by the
authenticated username and `created_at` stamped. -/
def create_quiz_doc (title : String) (qs : List QuizQuestion)
    (currentUser now : String) : QuizDoc :=
  [("title", QVal.str title), ("questions", QVal.questions qs),
   ("created_by", QVal.str currentUser), ("created_at", QVal.str now)]

/-- The per-document transform of `GET /quiz/list` (`src/main.py:585`):
`d["id"] = q.id` then `d.pop("answer", None)`. -/
def list_quiz_item (d : QuizDoc) (id : String) : QuizDoc :=
  dictPop (d ++ [("id", QVal.str id)]) "answer"

/-- `GET /quiz/list` (`src/main.py:579`): maps the per-document transform
over every stored quiz document. -/
def list_quizzes (docs : List (QuizDoc × String)) : List QuizDoc :=
  docs.map (fun p => list_quiz_item p.1 p.2)

/-- `pat` occurs as a contiguous run inside the character list. -/
def listContains (pat : List Char) : List Char → Bool
  | [] => pat == []
  | c :: t => pat.isPrefixOf (c :: t) || listContains pat t

/-- `pat` occurs as a substring of `s`. -/
def strContains (s pat : String) : Bool :=
  listContains pat.data s.data

/-- Formalization of a "visible \"unknown\"/error marker" in a payload
string: it mentions unknown or error (either capitalization). -/
def containsMarker (s : String) : Bool :=
  strContains s "unknown" || strContains s "Unknown" ||
    strContains s "error" || strContains s "Error"

/-- Whether an endpoint run completed without raising an `HTTPException`
(a 200-shaped response rather than a request-level error). -/
def exceptOk {ε α : Type} : Except ε α → Bool
  | .ok _ => true
  | .error _ => false

/-- The number of correctly answered positions as the specification states
it: positions below both lengths where the submitted index equals the
stored correct index (`zip` truncates to the shorter list). -/
def specScore (questions : List QuizQuestion) (answers : List Int) : Nat :=
  (questions.zip answers).countP (fun p => p.2 == p.1.answer)

/-! ## Helper lemmas -/

theorem charListLe_total : ∀ xs ys, charListLe xs ys = true ∨ charListLe ys xs = true
  | [], _ => Or.inl rfl
  | _ :: _, [] => Or.inr rfl
  | a :: as, b :: bs => by
    by_cases hab : a = b
    · subst hab
      simpa only [charListLe, if_pos rfl] using charListLe_total as bs
    · rcases lt_or_gt_of_ne hab with h | h
      · exact Or.inl (by simp [charListLe, hab, h])
      · exact Or.inr (by simp [charListLe, Ne.symm hab, h])

theorem charListLe_trans : ∀ xs ys zs, charListLe xs ys = true →
    charListLe ys zs = true → charListLe xs zs = true
  | [], _, _, _, _ => rfl
  | _ :: _, [], _, h1, _ => by simp [charListLe] at h1
  | _ :: _, _ :: _, [], _, h2 => by simp [charListLe] at h2
  | a :: as, b :: bs, c :: cs, h1, h2 => by
    simp only [charListLe] at h1 h2 ⊢
    by_cases hab : a = b <;> by_cases hbc : b = c
    · rw [if_pos hab] at h1
      rw [if_pos hbc] at h2
      rw [if_pos (hab.trans hbc)]
      exact charListLe_trans as bs cs h1 h2
    · rw [if_neg hbc] at h2
      have hlt : a < c := hab ▸ of_decide_eq_true h2
      rw [if_neg (ne_of_lt hlt)]
      exact decide_eq_true hlt
    · rw [if_neg hab] at h1
      have hlt : a < c := hbc ▸ of_decide_eq_true h1
      rw [if_neg (ne_of_lt hlt)]
      exact decide_eq_true hlt
    · rw [if_neg hab] at h1
      rw [if_neg hbc] at h2
      have hlt : a < c := lt_trans (of_decide_eq_true h1) (of_decide_eq_true h2)
      rw [if_neg (ne_of_lt hlt)]
      exact decide_eq_true hlt

theorem strLe_empty_right (s : String) : strLe s "" = true → s = "" := by
  intro h
  cases s with
  | mk data =>
    cases data with
    | nil => rfl
    | cons c cs => simp [strLe, charListLe] at h

theorem histLe_total : ∀ a b : ContentEntry, histLe a b ∨ histLe b a :=
  fun a b => charListLe_total b.created_at.data a.created_at.data

theorem histLe_trans : ∀ a b c : ContentEntry, histLe a b → histLe b c → histLe a c :=
  fun _ _ _ h1 h2 => charListLe_trans _ _ _ h2 h1

theorem quiz_fold_from (as : List Int) :
    ∀ (qs : List QuizQuestion) (n c : Nat),
      ((qs.enumFrom n).foldl
          (fun correct p =>
            if p.1 < as.length && as.getD p.1 0 == p.2.answer then correct + 1
            else correct) c)
        = c + ((qs.zip (as.drop n)).countP (fun p => p.2 == p.1.answer))
  | [], n, c => by simp
  | q :: qs, n, c => by
    rw [List.enumFrom_cons, List.foldl_cons]
    by_cases hn : n < as.length
    · have hdrop : as.drop n = as[n] :: as.drop (n + 1) :=
        (List.getElem_cons_drop as n hn).symm
      have hgetD : as.getD n 0 = as[n] := by
        rw [List.getD_eq_getElem?_getD, List.getElem?_eq_getElem hn, Option.getD_some]
      rw [hdrop, List.zip_cons_cons, List.countP_cons,
        quiz_fold_from as qs (n + 1) _, hgetD]
      have hd : decide (n < as.length) = true := decide_eq_true hn
      cases hq : (as[n] == q.answer) with
      | true => simp only [hd, hq, Bool.true_and, if_true]; omega
      | false =>
        simp only [hd, hq, Bool.true_and, Bool.and_false, Bool.false_eq_true, if_false]
        omega
    · have hdrop : as.drop n = [] :=
        List.drop_eq_nil_of_le (Nat.le_of_not_lt hn)
      have hdrop1 : as.drop (n + 1) = [] :=
        List.drop_eq_nil_of_le (Nat.le_trans (Nat.le_of_not_lt hn) (Nat.le_succ n))
      rw [quiz_fold_from as qs (n + 1) _, hdrop, hdrop1]
      simp [hn]

theorem quizCorrectCount_eq_specScore (qs : List QuizQuestion) (as : List Int) :
    quizCorrectCount qs as = specScore qs as := by
  have h := quiz_fold_from as qs 0 0
  simpa [quizCorrectCount, specScore, List.enum] using h

theorem zip_take_length :
    ∀ (qs : List QuizQuestion) (as : List Int),
      qs.zip (as.take qs.length) = qs.zip as
  | [], _ => by simp
  | _ :: _, [] => by simp
  | q :: qs, a :: as => by
    simp only [List.length_cons, List.take_succ_cons, List.zip_cons_cons]
    rw [zip_take_length qs as]

/-! ## Claim theorems -/

/-- C7: for every user, the history listing returns all of that user's
entries sorted by `created_at` descending (so entries whose `created_at`
is missing/empty — key `""` — come last), as a permutation of the stored
entries: nothing is dropped or duplicated. -/
theorem history_listing_sorted (log : List (String × ContentEntry)) (user : String) :
    get_history (some log) user = .ok (sortHistory (userEntries log user)) ∧
    (sortHistory (userEntries log user)).Perm (userEntries log user) ∧
    (sortHistory (userEntries log user)).Pairwise histLe ∧
    (sortHistory (userEntries log user)).Pairwise
      (fun a b => a.created_at = "" → b.created_at = "") := by
  haveI : IsTotal ContentEntry histLe := ⟨histLe_total⟩
  haveI : IsTrans ContentEntry histLe := ⟨histLe_trans⟩
  have hsorted : (sortHistory (userEntries log user)).Pairwise histLe :=
    List.sorted_insertionSort histLe (userEntries log user)
  refine ⟨rfl, List.perm_insertionSort _ _, hsorted, ?_⟩
  refine hsorted.imp ?_
  intro a b hle ha
  apply strLe_empty_right
  rw [← ha]
  exact hle

/-- C8: the reported quiz score counts exactly the positions below both
the question count and the answer count where the submitted index equals
the stored correct index; the reported total is the question count;
answers beyond the question count are ignored without an error; and an
out-of-range submitted index is never counted as correct (it cannot equal
an in-range correct index). -/
theorem quiz_score_correct (qs : List QuizQuestion) (as : List Int) :
    submit_quiz true (some qs) as = .ok (specScore qs as, qs.length) ∧
    quizCorrectCount qs as = quizCorrectCount qs (as.take qs.length) ∧
    ∀ p ∈ qs.zip as, 0 ≤ p.1.answer → p.1.answer < (p.1.options.length : Int) →
      (p.2 < 0 ∨ (p.1.options.length : Int) ≤ p.2) → (p.2 == p.1.answer) = false := by
  refine ⟨?_, ?_, ?_⟩
  · show Except.ok (quizCorrectCount qs as, qs.length) = _
    rw [quizCorrectCount_eq_specScore]
  · rw [quizCorrectCount_eq_specScore, quizCorrectCount_eq_specScore,
      specScore, specScore, zip_take_length]
  · intro p _ h0 hlt hout
    have hne : p.2 ≠ p.1.answer := by omega
    exact beq_eq_false_iff_ne.mpr hne

/-- C8 witness: the spec's own scenario — correct indices `[0, 2, 1]`,
submitted answers `[0, 1]` — scores 1 out of 3. -/
theorem quiz_score_correct_witness :
    submit_quiz true
      (some [⟨"q1", ["a", "b"], 0⟩, ⟨"q2", ["a", "b", "c"], 2⟩, ⟨"q3", ["a", "b"], 1⟩])
      [0, 1] = .ok (1, 3) := by
  have h := (quiz_score_correct
    [⟨"q1", ["a", "b"], 0⟩, ⟨"q2", ["a", "b", "c"], 2⟩, ⟨"q3", ["a", "b"], 1⟩] [0, 1]).1
  rw [h]
  rfl

/-- C7 witness: a concrete three-entry log (one entry with an empty
`created_at`) listed for user `alice` comes back complete and in
descending timestamp order with the empty-timestamp entry last. -/
theorem history_listing_sorted_witness :
    get_history
      (some
        [("alice", { user := "alice", prompt := "p1", type := "text", created_at := "" }),
         ("bob", { user := "bob", prompt := "p2", type := "text", created_at := "t5" }),
         ("alice", { user := "alice", prompt := "p3", type := "text", created_at := "t1" }),
         ("alice", { user := "alice", prompt := "p4", type := "text", created_at := "t2" })])
      "alice" =
      .ok
        [{ user := "alice", prompt := "p4", type := "text", created_at := "t2" },
         { user := "alice", prompt := "p3", type := "text", created_at := "t1" },
         { user := "alice", prompt := "p1", type := "text", created_at := "" }] := by
  have h := (history_listing_sorted
    [("alice", { user := "alice", prompt := "p1", type := "text", created_at := "" }),
     ("bob", { user := "bob", prompt := "p2", type := "text", created_at := "t5" }),
     ("alice", { user := "alice", prompt := "p3", type := "text", created_at := "t1" }),
     ("alice", { user := "alice", prompt := "p4", type := "text", created_at := "t2" })]
    "alice").1
  rw [h]
  rfl

/-- C1 counterexample: for the valid pair (image, gemini) the advanced
dispatch labels the entry `image_generation_gemini`, not the claimed
`{kind}_{provider}` label `image_gemini`. -/
theorem type_label_counterexample :
    (generate_image_advanced true (fun p => .ok p) (some []) "alice" "hi" "gemini"
        "alice" "t0").map (fun r => r.1.type) = .ok "image_generation_gemini" ∧
      "image_generation_gemini" ≠ "image_gemini" :=
  ⟨rfl, by decide⟩

/-- C1 (amended): with the OpenAI key configured, every advanced dispatch
returns (never raises) an entry whose type label is `text_{provider}` for
the text kind and `{kind}_generation_{provider}` for the image, video,
cartoon and voiceover kinds. -/
theorem advanced_dispatch_type_labels (openaiChat openaiImage : Oracle) (db : DBState)
    (user prompt provider currentUser now : String) :
    (generate_text_advanced true openaiChat db user prompt provider currentUser
        now).map (fun r => r.1.type) = .ok ("text_" ++ provider) ∧
    (generate_image_advanced true openaiImage db user prompt provider currentUser
        now).map (fun r => r.1.type) = .ok ("image_generation_" ++ provider) ∧
    (generate_video_advanced db user prompt provider currentUser
        now).map (fun r => r.1.type) = .ok ("video_generation_" ++ provider) ∧
    (generate_cartoon_advanced db user prompt provider currentUser
        now).map (fun r => r.1.type) = .ok ("cartoon_generation_" ++ provider) ∧
    (generate_voiceover_advanced db user prompt provider currentUser
        now).map (fun r => r.1.type) = .ok ("voiceover_generation_" ++ provider) :=
  ⟨rfl, rfl, rfl, rfl, rfl⟩

/-- C2 counterexample: `notaprovider` is outside the recognized provider
set, yet the degraded image entry's payload
(`https://placehold.co/400x300?text=notaprovider+Image+Stub`) contains no
visible "unknown"/error marker. -/
theorem unknown_provider_marker_counterexample :
    ("notaprovider" ∉ (["openai", "gemini", "claude", "manus"] : List String)) ∧
    (generate_image_advanced true (fun p => .ok p) (some []) "alice" "hi"
        "notaprovider" "alice" "t0").map (fun r => r.1.storage_url) =
      .ok (some "https://placehold.co/400x300?text=notaprovider+Image+Stub") ∧
    containsMarker "https://placehold.co/400x300?text=notaprovider+Image+Stub" = false :=
  ⟨by decide, rfl, by decide⟩

/-- C2 (amended): for every provider outside the recognized set, no
advanced dispatch throws; the degraded text payload is the visible
`[Unknown provider: {provider}]` marker, while the degraded media payloads
are provider-named `placehold.co` stub URLs (naming the provider and
`Stub`, not an "unknown"/error marker). -/
theorem unknown_provider_degraded (keySet : Bool) (openaiChat openaiImage : Oracle)
    (db : DBState) (user prompt provider currentUser now : String)
    (h1 : provider ≠ "openai") (h2 : provider ≠ "gemini")
    (h3 : provider ≠ "claude") (h4 : provider ≠ "manus") :
    (generate_text_advanced keySet openaiChat db user prompt provider currentUser
        now).map (fun r => r.1.output) =
      .ok (some ("[Unknown provider: " ++ provider ++ "]")) ∧
    (generate_image_advanced keySet openaiImage db user prompt provider currentUser
        now).map (fun r => r.1.storage_url) =
      .ok (some ("https://placehold.co/400x300?text=" ++ provider ++ "+Image+Stub")) ∧
    (generate_video_advanced db user prompt provider currentUser
        now).map (fun r => r.1.storage_url) =
      .ok (some ("https://placehold.co/640x360?text=" ++ provider ++ "+Video+Stub")) ∧
    (generate_cartoon_advanced db user prompt provider currentUser
        now).map (fun r => r.1.storage_url) =
      .ok (some ("https://placehold.co/400x300?text=" ++ provider ++ "+Cartoon+Stub")) ∧
    (generate_voiceover_advanced db user prompt provider currentUser
        now).map (fun r => r.1.storage_url) =
      .ok (some ("https://placehold.co/300x50?text=" ++ provider ++ "+Voice+Stub")) := by
  have b1 : (provider == "openai") = false := beq_eq_false_iff_ne.mpr h1
  have b2 : (provider == "gemini") = false := beq_eq_false_iff_ne.mpr h2
  have b3 : (provider == "claude") = false := beq_eq_false_iff_ne.mpr h3
  have b4 : (provider == "manus") = false := beq_eq_false_iff_ne.mpr h4
  refine ⟨?_, ?_, ?_, ?_, ?_⟩ <;>
    simp [generate_text_advanced, generate_image_advanced, generate_video_advanced,
      generate_cartoon_advanced, generate_voiceover_advanced, generate_video_ai,
      generate_cartoon_video, generate_voiceover, Except.map, b1, b2, b3, b4]

/-- C2 witness: the unrecognized provider `foo` yields the degraded text
entry with the visible unknown-provider marker. -/
theorem unknown_provider_degraded_witness :
    (generate_text_advanced false (fun p => .ok p) (some []) "alice" "hi" "foo"
        "alice" "t0").map (fun r => r.1.output) = .ok (some "[Unknown provider: foo]") :=
  (unknown_provider_degraded false (fun p => .ok p) (fun p => .ok p) (some [])
    "alice" "hi" "foo" "alice" "t0" (by decide) (by decide) (by decide) (by decide)).1

/-- C3 counterexample: with the OpenAI key absent, the plain
image-generation endpoint — not a text-generation request — also fails
with a request-level 500 error, so the text-kind missing-credential
short-circuit is not the only such case. -/
theorem missing_key_counterexample :
    generate_image false (fun p => .ok p) (some []) "alice" "hi" "t0" =
      .error ⟨500, "OpenAI API key not set"⟩ :=
  rfl

/-- C3 (amended): with the OpenAI key absent, the text endpoints targeting
the default provider fail with a 500 error — and so do the image
endpoints; these missing-credential short-circuits (text and image, openai
only) are the only cases in which any generation endpoint surfaces a
request-level error instead of a degraded entry. -/
theorem missing_key_short_circuit (openaiChat openaiImage : Oracle) (db : DBState)
    (user prompt currentUser now : String) :
    generate_text false openaiChat db user prompt now =
      .error ⟨500, "OpenAI API key not set"⟩ ∧
    generate_image false openaiImage db user prompt now =
      .error ⟨500, "OpenAI API key not set"⟩ ∧
    generate_text_advanced false openaiChat db user prompt "openai" currentUser now =
      .error ⟨500, "OpenAI API key not set"⟩ ∧
    generate_image_advanced false openaiImage db user prompt "openai" currentUser now =
      .error ⟨500, "OpenAI API key not set"⟩ ∧
    (∀ keySet err, generate_text keySet openaiChat db user prompt now = .error err →
      keySet = false ∧ err = ⟨500, "OpenAI API key not set"⟩) ∧
    (∀ keySet err, generate_image keySet openaiImage db user prompt now = .error err →
      keySet = false ∧ err = ⟨500, "OpenAI API key not set"⟩) ∧
    (∀ keySet provider err,
      generate_text_advanced keySet openaiChat db user prompt provider currentUser now =
          .error err →
        keySet = false ∧ provider = "openai" ∧ err = ⟨500, "OpenAI API key not set"⟩) ∧
    (∀ keySet provider err,
      generate_image_advanced keySet openaiImage db user prompt provider currentUser now =
          .error err →
        keySet = false ∧ provider = "openai" ∧ err = ⟨500, "OpenAI API key not set"⟩) ∧
    exceptOk (generate_video db user prompt now) = true ∧
    exceptOk (generate_animation db user prompt now) = true ∧
    (∀ provider, exceptOk (generate_video_advanced db user prompt provider currentUser now)
      = true) ∧
    (∀ provider, exceptOk (generate_cartoon_advanced db user prompt provider currentUser now)
      = true) ∧
    (∀ provider, exceptOk (generate_voiceover_advanced db user prompt provider currentUser now)
      = true) := by
  refine ⟨rfl, rfl, rfl, rfl, ?_, ?_, ?_, ?_, rfl, rfl, fun _ => rfl, fun _ => rfl,
    fun _ => rfl⟩
  · intro keySet err h
    cases keySet
    · refine ⟨rfl, ?_⟩
      have h' := (Except.error.inj h).symm
      exact h'
    · cases hc : openaiChat prompt <;> simp [generate_text, hc] at h
  · intro keySet err h
    cases keySet
    · exact ⟨rfl, (Except.error.inj h).symm⟩
    · cases hc : openaiImage prompt <;> simp [generate_image, hc] at h
  · intro keySet provider err h
    cases keySet
    · by_cases hp : provider = "openai"
      · subst hp
        exact ⟨rfl, rfl, (Except.error.inj h).symm⟩
      · rw [generate_text_advanced] at h
        simp only [Bool.not_false, Bool.true_and] at h
        rw [beq_eq_false_iff_ne.mpr hp] at h
        cases hc : openaiChat prompt <;> simp [hc, beq_eq_false_iff_ne.mpr hp] at h
    · cases hc : openaiChat prompt <;> simp [generate_text_advanced, hc] at h
  · intro keySet provider err h
    cases keySet
    · by_cases hp : provider = "openai"
      · subst hp
        exact ⟨rfl, rfl, (Except.error.inj h).symm⟩
      · rw [generate_image_advanced] at h
        simp only [Bool.not_false, Bool.true_and] at h
        rw [beq_eq_false_iff_ne.mpr hp] at h
        cases hc : openaiImage prompt <;> simp [hc, beq_eq_false_iff_ne.mpr hp] at h
    · cases hc : openaiImage prompt <;> simp [generate_image_advanced, hc] at h

/-- C3 witness: with no key configured, a concrete text-generation request
to the default provider fails with the 500 missing-key error. -/
theorem missing_key_short_circuit_witness :
    generate_text false (fun p => .ok p) (some []) "alice" "hi" "t0" =
      .error ⟨500, "OpenAI API key not set"⟩ :=
  (missing_key_short_circuit (fun p => .ok p) (fun p => .ok p) (some [])
    "alice" "hi" "alice" "t0").1

/-- C4: whenever the provider adapter raises (`openaiChat`/`openaiImage`
returns an exception `e`), the dispatch converts the failure into a
degraded output and still returns the full persistable entry: inline
error-annotated `output` for text, fixed placeholder `storage_url` plus an
error-annotated `prompt` for media; the entry is appended to the store. -/
theorem adapter_failure_degraded (openaiChat openaiImage : Oracle) (db : DBState)
    (user prompt currentUser now e : String)
    (hc : openaiChat prompt = .error e) (hi : openaiImage prompt = .error e) :
    generate_text true openaiChat db user prompt now =
      .ok ({ user := user, prompt := prompt,
             output := some ("[OpenAI error: " ++ e ++ "]"), type := "text",
             created_at := now },
           dbAppend db user
             { user := user, prompt := prompt,
               output := some ("[OpenAI error: " ++ e ++ "]"), type := "text",
               created_at := now }) ∧
    generate_image true openaiImage db user prompt now =
      .ok ({ user := user, prompt := "[OpenAI error: " ++ e ++ "] " ++ prompt,
             storage_url := some "https://placehold.co/400x300?text=OpenAI+Error",
             media_type := some "image", type := "image_generation",
             created_at := now },
           dbAppend db user
             { user := user, prompt := "[OpenAI error: " ++ e ++ "] " ++ prompt,
               storage_url := some "https://placehold.co/400x300?text=OpenAI+Error",
               media_type := some "image", type := "image_generation",
               created_at := now }) ∧
    generate_text_advanced true openaiChat db user prompt "openai" currentUser now =
      .ok ({ user := user, prompt := prompt,
             output := some ("[AI error: " ++ e ++ "]"), type := "text_" ++ "openai",
             provider := some "openai", created_at := now },
           dbAppend db user
             { user := user, prompt := prompt,
               output := some ("[AI error: " ++ e ++ "]"), type := "text_" ++ "openai",
               provider := some "openai", created_at := now }) ∧
    generate_image_advanced true openaiImage db user prompt "openai" currentUser now =
      .ok ({ user := user, prompt := "[AI error: " ++ e ++ "] " ++ prompt,
             storage_url := some "https://placehold.co/400x300?text=AI+Error",
             media_type := some "image", type := "image_generation_" ++ "openai",
             provider := some "openai", created_at := now },
           dbAppend db user
             { user := user, prompt := "[AI error: " ++ e ++ "] " ++ prompt,
               storage_url := some "https://placehold.co/400x300?text=AI+Error",
               media_type := some "image", type := "image_generation_" ++ "openai",
               provider := some "openai", created_at := now }) := by
  refine ⟨?_, ?_, ?_, ?_⟩ <;>
    simp [generate_text, generate_image, generate_text_advanced,
      generate_image_advanced, hc, hi]

/-- C4 witness: a concrete failing adapter (`boom`) produces the degraded
text entry, persisted. -/
theorem adapter_failure_degraded_witness :
    generate_text true (fun _ => Except.error "boom") (some []) "alice" "hi" "t0" =
      .ok ({ user := "alice", prompt := "hi", output := some "[OpenAI error: boom]",
             type := "text", created_at := "t0" },
           some [("alice",
             { user := "alice", prompt := "hi", output := some "[OpenAI error: boom]",
               type := "text", created_at := "t0" })]) := by
  have h := (adapter_failure_degraded (fun _ => Except.error "boom")
    (fun _ => Except.error "boom") (some []) "alice" "hi" "alice" "t0" "boom" rfl rfl).1
  rw [h]
  rfl

/-- C5 counterexample: with the history store unconfigured (`db is None`)
the text-generation endpoint still completes successfully and returns the
entry it was asked to persist while silently not persisting it (the store
stays empty), instead of failing with a service-level error. -/
theorem store_unavailable_counterexample :
    generate_text true (fun p => .ok p) none "alice" "hi" "t0" =
      .ok ({ user := "alice", prompt := "hi", output := some "hi",
             type := "text", created_at := "t0" }, none) :=
  rfl

/-- C5 (amended): when the store is unconfigured, the history listing and
the explicit save endpoint fail with a 500 service-level error, but the
generation endpoints do not: a generation request completes successfully
(when it passes the key check) and silently skips persisting its entry. -/
theorem store_unavailable_amended (keySet : Bool) (openaiChat : Oracle) (data : Content)
    (user prompt provider currentUser now : String) :
    get_history none user = .error ⟨500, "Database not connected"⟩ ∧
    save_content none data currentUser now = .error ⟨500, "Database not connected"⟩ ∧
    (generate_text keySet openaiChat none user prompt now).map (fun r => r.2) =
      (if keySet then .ok none else .error ⟨500, "OpenAI API key not set"⟩) ∧
    (generate_text_advanced keySet openaiChat none user prompt provider currentUser
        now).map (fun r => r.2) =
      (if !keySet && provider == "openai" then .error ⟨500, "OpenAI API key not set"⟩
       else .ok none) := by
  refine ⟨rfl, rfl, ?_, ?_⟩
  · cases keySet <;> rfl
  · cases keySet <;> cases hb : (provider == "openai") <;>
      simp [generate_text_advanced, hb, Except.map, dbAppend]

/-- C6 counterexample: the cartoon-kind advanced endpoint persists
`media_type = "animation"`, a second exception besides voiceover to
"media_type equals the requested kind". -/
theorem cartoon_media_type_counterexample :
    (generate_cartoon_advanced (some []) "alice" "hi" "openai" "alice" "t0").map
        (fun r => r.1.media_type) = .ok (some "animation") ∧
      ("animation" : String) ≠ "cartoon" :=
  ⟨rfl, by decide⟩

/-- C6 (amended): in every persisted entry `media_type` is present exactly
when `storage_url` is present (text and saved entries carry neither, media
entries carry both), and `media_type` mirrors the requested kind with two
exceptions: voiceover entries carry `"audio"` and cartoon entries carry
`"animation"`. -/
theorem media_type_mirrors_kind (keySet : Bool) (openaiChat openaiImage : Oracle)
    (db : DBState) (log : List (String × ContentEntry)) (data : Content)
    (user prompt provider currentUser now : String) :
    (generate_text keySet openaiChat db user prompt now).map
        (fun r => (r.1.media_type, r.1.storage_url)) =
      (if keySet then .ok (none, none) else .error ⟨500, "OpenAI API key not set"⟩) ∧
    (generate_text_advanced keySet openaiChat db user prompt provider currentUser
        now).map (fun r => (r.1.media_type, r.1.storage_url)) =
      (if !keySet && provider == "openai" then .error ⟨500, "OpenAI API key not set"⟩
       else .ok (none, none)) ∧
    (save_content (some log) data currentUser now).map
        (fun r => (r.1.media_type, r.1.storage_url)) = .ok (none, none) ∧
    (generate_image keySet openaiImage db user prompt now).map
        (fun r => (r.1.media_type, r.1.storage_url.isSome)) =
      (if keySet then .ok (some "image", true) else .error ⟨500, "OpenAI API key not set"⟩) ∧
    (generate_image_advanced keySet openaiImage db user prompt provider currentUser
        now).map (fun r => (r.1.media_type, r.1.storage_url.isSome)) =
      (if !keySet && provider == "openai" then .error ⟨500, "OpenAI API key not set"⟩
       else .ok (some "image", true)) ∧
    (generate_video db user prompt now).map
        (fun r => (r.1.media_type, r.1.storage_url.isSome)) = .ok (some "video", true) ∧
    (generate_video_advanced db user prompt provider currentUser now).map
        (fun r => (r.1.media_type, r.1.storage_url.isSome)) = .ok (some "video", true) ∧
    (generate_animation db user prompt now).map
        (fun r => (r.1.media_type, r.1.storage_url.isSome)) = .ok (some "animation", true) ∧
    (generate_cartoon_advanced db user prompt provider currentUser now).map
        (fun r => (r.1.media_type, r.1.storage_url.isSome)) = .ok (some "animation", true) ∧
    (generate_voiceover_advanced db user prompt provider currentUser now).map
        (fun r => (r.1.media_type, r.1.storage_url.isSome)) = .ok (some "audio", true) := by
  refine ⟨?_, ?_, rfl, ?_, ?_, rfl, rfl, rfl, rfl, rfl⟩
  · cases keySet <;> rfl
  · cases keySet <;> cases hb : (provider == "openai") <;>
      simp [generate_text_advanced, hb, Except.map]
  · cases keySet <;> rfl
  · cases keySet <;> cases hb : (provider == "openai") <;>
      simp [generate_image_advanced, hb, Except.map]

/-- C9: the entry persisted by an advanced generation endpoint is
attributed to the request-body `user` parameter and is independent of the
authenticated identity: two runs differing only in the authenticated
username produce identical results, the entry's `user` field is the body
parameter, and the entry is stored under the body user's log. -/
theorem advanced_user_attribution (keySet : Bool) (openaiChat : Oracle) (db : DBState)
    (user prompt provider now cu1 cu2 : String) :
    generate_text_advanced keySet openaiChat db user prompt provider cu1 now =
      generate_text_advanced keySet openaiChat db user prompt provider cu2 now ∧
    generate_voiceover_advanced db user prompt provider cu1 now =
      generate_voiceover_advanced db user prompt provider cu2 now ∧
    (generate_text_advanced keySet openaiChat db user prompt provider cu1 now).map
        (fun r => r.1.user) =
      (if !keySet && provider == "openai" then .error ⟨500, "OpenAI API key not set"⟩
       else .ok user) ∧
    (generate_voiceover_advanced db user prompt provider cu1 now).map
        (fun r => r.1.user) = .ok user ∧
    (∀ r, generate_text_advanced keySet openaiChat db user prompt provider cu1 now =
        .ok r → r.2 = dbAppend db user r.1) ∧
    (∀ r, generate_voiceover_advanced db user prompt provider cu1 now = .ok r →
        r.2 = dbAppend db user r.1) := by
  refine ⟨rfl, rfl, ?_, rfl, ?_, ?_⟩
  · cases keySet <;> cases hb : (provider == "openai") <;>
      simp [generate_text_advanced, hb, Except.map]
  · intro r h
    cases hcond : (!keySet && (provider == "openai")) <;>
      simp only [generate_text_advanced, hcond, Bool.false_eq_true, Bool.true_eq_false,
        if_false, if_true, reduceCtorEq, Except.ok.injEq] at h
    subst h
    rfl
  · intro r h
    have hx := Except.ok.inj h
    subst hx
    rfl

/-- C9 witness: two concrete runs differing only in the authenticated
username (`alice` vs `bob`) produce identical results body-attributed to
`carol`. -/
theorem advanced_user_attribution_witness :
    generate_text_advanced true (fun p => .ok p) (some []) "carol" "hi" "gemini"
        "alice" "t0" =
      generate_text_advanced true (fun p => .ok p) (some []) "carol" "hi" "gemini"
        "bob" "t0" :=
  (advanced_user_attribution true (fun p => .ok p) (some []) "carol" "hi" "gemini"
    "t0" "alice" "bob").1

/-- C10: the quiz listing returns each stored quiz with its `questions`
list unmodified — so every per-question `answer` (correct-option index)
is included in the response — because only a top-level `answer` key is
popped and quiz documents have no such key (the pop removes nothing). -/
theorem quiz_listing_keeps_answers (title : String) (qs : List QuizQuestion)
    (currentUser now id : String) :
    list_quiz_item (create_quiz_doc title qs currentUser now) id =
      create_quiz_doc title qs currentUser now ++ [("id", QVal.str id)] ∧
    (list_quiz_item (create_quiz_doc title qs currentUser now) id).lookup "questions" =
      some (QVal.questions qs) := by
  constructor
  · simp [list_quiz_item, dictPop, create_quiz_doc]
  · simp [list_quiz_item, dictPop, create_quiz_doc, List.lookup]
